import Mathlib

/-!
Shallow embedding of `generate_random_shuffle_fn` from
`python/ray/data/_internal/planner/random_shuffle.py`.

The Python function resolves a random seed once at construction time and
returns a closure `fn(refs, ctx)` that (1) counts input blocks, (2) when an
upstream map transformer is attached in the context overrides its target max
block size to infinity, wires its transform into the shuffle spec, and — via
a `nonlocal` statement — rebinds the captured `ray_remote_args` to the
upstream operator's args, (3) builds a `ShuffleTaskSpec`, (4) selects a
scheduler from the process-wide shuffle strategy, raising
`NotImplementedError` when the strategy is push-based and `num_outputs` was
explicitly supplied, and (5) calls the scheduler's `execute` with
`num_outputs or num_input_blocks` and the (possibly rebound) remote args for
both the map and the reduce phase.

The closure's mutable captured variable is modelled as a state record
threaded through invocations; the in-place mutation of the shared upstream
transformer and the scheduler `execute` call are recorded in the invocation
outcome.
-/

namespace RandomShuffle

/-- Modelled from the spec: `INT32_MAX` from `ray.util.common` (not under
`src/`); the spec calls the fallback seed an int32 in `[0, INT32_MAX)`
obtained by reducing wall-clock nanoseconds modulo `INT32_MAX`. -/
def INT32_MAX : Nat := 2 ^ 31 - 1

/-- Modelled from the spec: remote-execution arguments
(`Optional[Dict[str, Any]]`) are passed through opaquely; we model the
mapping as an optional association list. -/
abbrev RayRemoteArgs := Option (List (String × Int))

/-- Modelled from the spec: a target max block size is a float that is
either a finite value or `float("inf")`; only the override to infinity
matters to this core, so we model it as a tagged value. -/
inductive TargetBlockSize where
  | finite (v : Nat)
  | infinite
deriving DecidableEq, Repr

/-- Modelled from the spec: the upstream `MapTransformer` exposes
`set_target_max_block_size` (mutating a shared object) and
`apply_transform`; the transform behaviour itself is opaque, so we carry an
opaque identity tag for it. -/
structure MapTransformer where
  target_max_block_size : TargetBlockSize
  transform_id : Nat
deriving DecidableEq, Repr

/-- Modelled from the spec: `RefBundle` is an opaque container of block
handles with a block-count accessor (`len(r.blocks)`). -/
structure RefBundle where
  blocks : List Nat
deriving DecidableEq, Repr

/-- Modelled from the spec: the per-invocation `TaskContext` fields read by
this core. -/
structure TaskContext where
  target_max_block_size : TargetBlockSize
  upstream_map_transformer : Option MapTransformer
  upstream_map_ray_remote_args : RayRemoteArgs
deriving DecidableEq, Repr

/-- Modelled from the spec: the process-wide shuffle strategy enumeration;
the source only distinguishes `SORT_SHUFFLE_PUSH_BASED` from everything
else. -/
inductive ShuffleStrategy where
  | SORT_SHUFFLE_PULL_BASED
  | SORT_SHUFFLE_PUSH_BASED
deriving DecidableEq, Repr

/-- Modelled from the spec: the `DataContext` fields read by this core. -/
structure DataContext where
  shuffle_strategy : ShuffleStrategy
deriving DecidableEq, Repr

/-- Modelled from the spec: the immutable `ShuffleTaskSpec` constructed per
invocation; `upstream_map_fn` records which upstream transform (by its
opaque tag) was wired in, or `none`. -/
structure ShuffleTaskSpec where
  target_max_block_size : TargetBlockSize
  random_shuffle : Bool
  random_seed : Int
  upstream_map_fn : Option Nat
deriving DecidableEq, Repr

/-- Which scheduler class was constructed. -/
inductive SchedulerKind where
  | push_based
  | pull_based
deriving DecidableEq, Repr

/-- Record of one call to the selected scheduler's `execute`, with the
exact arguments the source passes. -/
structure ExecuteCall where
  scheduler : SchedulerKind
  spec : ShuffleTaskSpec
  refs : List RefBundle
  num_outputs : Int
  map_ray_remote_args : RayRemoteArgs
  reduce_ray_remote_args : RayRemoteArgs
  debug_limit : Option Int
deriving DecidableEq, Repr

/-- Result of one invocation: either the `NotImplementedError` raised for
push-based shuffle with an explicit `num_outputs`, or the scheduler
`execute` call. -/
inductive FnResult where
  | error_not_implemented
  | ok (call : ExecuteCall)
deriving DecidableEq, Repr

/-- The closure state captured by the returned `fn`: everything bound at
construction time. Only `ray_remote_args` is mutable (the source rebinds it
through `nonlocal`); the other fields are never reassigned. -/
structure ShuffleFnState where
  data_context : DataContext
  seed : Int
  num_outputs : Option Int
  ray_remote_args : RayRemoteArgs
  debug_limit : Option Int
deriving DecidableEq, Repr

/-- Outcome of one invocation of the closure: the closure state afterwards,
the upstream transformer object as left in the context (mutated in place
when attached), the `ShuffleTaskSpec` built during the invocation, how many
`set_target_max_block_size` calls the invocation performed, and the
result. -/
structure FnOutcome where
  state : ShuffleFnState
  ctx_transformer : Option MapTransformer
  built_spec : ShuffleTaskSpec
  overrides : Nat
  result : FnResult
deriving DecidableEq, Repr

/-- Python `a or b` for `a : Optional[int]`: `None` and `0` are falsy. -/
def pyOr (a : Option Int) (b : Nat) : Int :=
  match a with
  | some n => if n = 0 then (b : Int) else n
  | none => (b : Int)

/-- Construction-time body of `generate_random_shuffle_fn`: resolve the
seed (`seed if seed is not None else time.time_ns() % INT32_MAX`, with the
wall clock passed in as `time_ns`) and capture the arguments in the closure
state. -/
def generate_random_shuffle_fn (data_context : DataContext) (seed : Option Int)
    (num_outputs : Option Int) (ray_remote_args : RayRemoteArgs)
    (debug_limit : Option Int) (time_ns : Nat) : ShuffleFnState :=
  { data_context := data_context
    seed := seed.getD ((time_ns % INT32_MAX : Nat) : Int)
    num_outputs := num_outputs
    ray_remote_args := ray_remote_args
    debug_limit := debug_limit }

/-- One invocation of the inner closure `fn(refs, ctx)`. Mirrors the source
line by line: count input blocks; if an upstream transformer is attached,
override its target max block size to infinity, wire its transform in, and
rebind the captured `ray_remote_args` to the upstream args; build the
`ShuffleTaskSpec`; if the strategy is push-based and `num_outputs` was
supplied raise `NotImplementedError`, otherwise select the scheduler and
call `execute(refs, num_outputs or num_input_blocks, ...)` with the
(possibly rebound) remote args for both phases. -/
def fn (st : ShuffleFnState) (refs : List RefBundle) (ctx : TaskContext) :
    FnOutcome :=
  let num_input_blocks := (refs.map fun r => r.blocks.length).sum
  let ctx_transformer := ctx.upstream_map_transformer.map
    (fun mt => { mt with target_max_block_size := TargetBlockSize.infinite })
  let upstream_map_fn := ctx.upstream_map_transformer.map
    (fun mt => mt.transform_id)
  let rargs :=
    match ctx.upstream_map_transformer with
    | some _ => ctx.upstream_map_ray_remote_args
    | none => st.ray_remote_args
  let shuffle_spec : ShuffleTaskSpec :=
    { target_max_block_size := ctx.target_max_block_size
      random_shuffle := true
      random_seed := st.seed
      upstream_map_fn := upstream_map_fn }
  let execCall : SchedulerKind → ExecuteCall := fun k =>
    { scheduler := k
      spec := shuffle_spec
      refs := refs
      num_outputs := pyOr st.num_outputs num_input_blocks
      map_ray_remote_args := rargs
      reduce_ray_remote_args := rargs
      debug_limit := st.debug_limit }
  let result :=
    if st.data_context.shuffle_strategy = ShuffleStrategy.SORT_SHUFFLE_PUSH_BASED
    then
      if st.num_outputs.isSome then FnResult.error_not_implemented
      else FnResult.ok (execCall SchedulerKind.push_based)
    else FnResult.ok (execCall SchedulerKind.pull_based)
  { state := { st with ray_remote_args := rargs }
    ctx_transformer := ctx_transformer
    built_spec := shuffle_spec
    overrides := if ctx.upstream_map_transformer.isSome then 1 else 0
    result := result }

/-- The closure state after a sequence of invocations. -/
def runCalls (st : ShuffleFnState) :
    List (List RefBundle × TaskContext) → ShuffleFnState
  | [] => st
  | c :: rest => runCalls (fn st c.1 c.2).state rest

/-- Total number of `set_target_max_block_size` calls performed over a
sequence of invocations. -/
def runOverrides (st : ShuffleFnState) :
    List (List RefBundle × TaskContext) → Nat
  | [] => 0
  | c :: rest => (fn st c.1 c.2).overrides + runOverrides (fn st c.1 c.2).state rest

/-- The output count handed to `execute`, when a scheduler was invoked. -/
def FnResult.numOutputs? : FnResult → Option Int
  | .ok c => some c.num_outputs
  | .error_not_implemented => none

/-- The map-phase remote args handed to `execute`, when a scheduler was
invoked. -/
def FnResult.mapArgs? : FnResult → Option RayRemoteArgs
  | .ok c => some c.map_ray_remote_args
  | .error_not_implemented => none

/-- The reduce-phase remote args handed to `execute`, when a scheduler was
invoked. -/
def FnResult.reduceArgs? : FnResult → Option RayRemoteArgs
  | .ok c => some c.reduce_ray_remote_args
  | .error_not_implemented => none

/-! Invariants of the closure state: `fn` only ever rebinds
`ray_remote_args`; every other captured variable is fixed at construction. -/

theorem fn_state_seed (st : ShuffleFnState) (refs : List RefBundle)
    (ctx : TaskContext) : (fn st refs ctx).state.seed = st.seed := rfl

theorem fn_state_data_context (st : ShuffleFnState) (refs : List RefBundle)
    (ctx : TaskContext) : (fn st refs ctx).state.data_context = st.data_context := rfl

theorem fn_state_num_outputs (st : ShuffleFnState) (refs : List RefBundle)
    (ctx : TaskContext) : (fn st refs ctx).state.num_outputs = st.num_outputs := rfl

theorem fn_state_rargs_of_none (st : ShuffleFnState) (refs : List RefBundle)
    (ctx : TaskContext) (h : ctx.upstream_map_transformer = none) :
    (fn st refs ctx).state.ray_remote_args = st.ray_remote_args := by
  simp [fn, h]

theorem runCalls_seed (calls : List (List RefBundle × TaskContext))
    (st : ShuffleFnState) : (runCalls st calls).seed = st.seed := by
  induction calls generalizing st with
  | nil => rfl
  | cons c rest ih => simp [runCalls, ih, fn_state_seed]

theorem runCalls_data_context (calls : List (List RefBundle × TaskContext))
    (st : ShuffleFnState) :
    (runCalls st calls).data_context = st.data_context := by
  induction calls generalizing st with
  | nil => rfl
  | cons c rest ih => simp [runCalls, ih, fn_state_data_context]

theorem runCalls_num_outputs (calls : List (List RefBundle × TaskContext))
    (st : ShuffleFnState) :
    (runCalls st calls).num_outputs = st.num_outputs := by
  induction calls generalizing st with
  | nil => rfl
  | cons c rest ih => simp [runCalls, ih, fn_state_num_outputs]

theorem runCalls_rargs_of_none (calls : List (List RefBundle × TaskContext))
    (st : ShuffleFnState)
    (h : ∀ c ∈ calls, c.2.upstream_map_transformer = none) :
    (runCalls st calls).ray_remote_args = st.ray_remote_args := by
  induction calls generalizing st with
  | nil => rfl
  | cons c rest ih =>
    rw [runCalls, ih _ (fun d hd => h d (List.mem_cons_of_mem c hd)),
      fn_state_rargs_of_none st c.1 c.2 (h c (List.mem_cons_self c rest))]

theorem runOverrides_count (calls : List (List RefBundle × TaskContext))
    (st : ShuffleFnState) :
    runOverrides st calls =
      (calls.filter fun c => c.2.upstream_map_transformer.isSome).length := by
  induction calls generalizing st with
  | nil => rfl
  | cons c rest ih =>
    rw [runOverrides, ih]
    show (fn st c.1 c.2).overrides + _ = _
    rcases h : c.2.upstream_map_transformer with _ | mt <;>
      simp [fn, h, List.filter_cons, Nat.add_comm]

/-- Helper: under the push-based strategy with `num_outputs` supplied, any
invocation from any reachable closure state yields the error. -/
theorem push_with_num_outputs_errors (seed : Option Int) (n : Int)
    (rra : RayRemoteArgs) (dl : Option Int) (t : Nat)
    (calls : List (List RefBundle × TaskContext))
    (refs : List RefBundle) (ctx : TaskContext) :
    (fn (runCalls (generate_random_shuffle_fn
          ⟨ShuffleStrategy.SORT_SHUFFLE_PUSH_BASED⟩ seed (some n) rra dl t)
        calls) refs ctx).result = FnResult.error_not_implemented := by
  have hdc := runCalls_data_context calls (generate_random_shuffle_fn
    ⟨ShuffleStrategy.SORT_SHUFFLE_PUSH_BASED⟩ seed (some n) rra dl t)
  have hno := runCalls_num_outputs calls (generate_random_shuffle_fn
    ⟨ShuffleStrategy.SORT_SHUFFLE_PUSH_BASED⟩ seed (some n) rra dl t)
  simp [generate_random_shuffle_fn] at hdc hno
  simp [fn, generate_random_shuffle_fn, hdc, hno]

/-- C1: under the push-based strategy with `num_outputs` explicitly
supplied, every invocation of the returned transform — whatever invocations
preceded it — results in `NotImplementedError` and no scheduler `execute`
call. -/
theorem C1_push_based_rejection (seed : Option Int) (n : Int)
    (rra : RayRemoteArgs) (dl : Option Int) (t : Nat)
    (calls : List (List RefBundle × TaskContext))
    (refs : List RefBundle) (ctx : TaskContext) :
    (fn (runCalls (generate_random_shuffle_fn
          ⟨ShuffleStrategy.SORT_SHUFFLE_PUSH_BASED⟩ seed (some n) rra dl t)
        calls) refs ctx).result = FnResult.error_not_implemented :=
  push_with_num_outputs_errors seed n rra dl t calls refs ctx

/-- C2: with `num_outputs` omitted at construction, every invocation calls
the scheduler's `execute` with an output count equal to the total number of
blocks across the input bundles. -/
theorem C2_default_output_count (dc : DataContext) (seed : Option Int)
    (rra : RayRemoteArgs) (dl : Option Int) (t : Nat)
    (calls : List (List RefBundle × TaskContext))
    (refs : List RefBundle) (ctx : TaskContext) :
    (fn (runCalls (generate_random_shuffle_fn dc seed none rra dl t) calls)
        refs ctx).result.numOutputs? =
      some (((refs.map fun r => r.blocks.length).sum : Nat) : Int) := by
  have hno := runCalls_num_outputs calls
    (generate_random_shuffle_fn dc seed none rra dl t)
  simp [generate_random_shuffle_fn] at hno
  rcases dc with ⟨s⟩
  have hdc := runCalls_data_context calls
    (generate_random_shuffle_fn ⟨s⟩ seed none rra dl t)
  simp [generate_random_shuffle_fn] at hdc
  cases s <;>
    simp [fn, generate_random_shuffle_fn, hdc, hno, pyOr, FnResult.numOutputs?]

/-- C3 counterexample: `num_outputs = 0` is explicitly supplied (present,
not `None`) under the pull-based strategy, yet the scheduler receives the
input block count `2`, not the caller-supplied `0`: Python's
`num_outputs or num_input_blocks` treats `0` as absent. -/
theorem C3_counterexample :
    (fn (generate_random_shuffle_fn ⟨ShuffleStrategy.SORT_SHUFFLE_PULL_BASED⟩
          (some 1) (some 0) none none 0) [⟨[0, 1]⟩]
        ⟨TargetBlockSize.finite 10, none, none⟩).result.numOutputs? =
      some 2 ∧ (2 : Int) ≠ 0 := by
  constructor
  · rfl
  · decide

/-- C3 amended: under the pull-based strategy with a caller-supplied
*nonzero* `num_outputs`, every invocation hands the scheduler exactly the
caller-supplied value, regardless of the input bundles' block counts
(a supplied `0` is falsy in Python and is replaced by the input block
count). -/
theorem C3_explicit_output_honored (seed : Option Int) (n : Int) (hn : n ≠ 0)
    (rra : RayRemoteArgs) (dl : Option Int) (t : Nat)
    (calls : List (List RefBundle × TaskContext))
    (refs : List RefBundle) (ctx : TaskContext) :
    (fn (runCalls (generate_random_shuffle_fn
          ⟨ShuffleStrategy.SORT_SHUFFLE_PULL_BASED⟩ seed (some n) rra dl t)
        calls) refs ctx).result.numOutputs? = some n := by
  have hdc := runCalls_data_context calls (generate_random_shuffle_fn
    ⟨ShuffleStrategy.SORT_SHUFFLE_PULL_BASED⟩ seed (some n) rra dl t)
  have hno := runCalls_num_outputs calls (generate_random_shuffle_fn
    ⟨ShuffleStrategy.SORT_SHUFFLE_PULL_BASED⟩ seed (some n) rra dl t)
  simp [generate_random_shuffle_fn] at hdc hno
  simp [fn, generate_random_shuffle_fn, hdc, hno, pyOr, hn, FnResult.numOutputs?]

theorem C3_explicit_output_honored_witness :
    (10 : Int) ≠ 0 ∧
    (fn (runCalls (generate_random_shuffle_fn
          ⟨ShuffleStrategy.SORT_SHUFFLE_PULL_BASED⟩ none (some 10) none none 0)
        []) [⟨[0]⟩, ⟨[1, 2]⟩]
        ⟨TargetBlockSize.finite 1, none, none⟩).result.numOutputs? = some 10 :=
  ⟨by decide, C3_explicit_output_honored none 10 (by decide) none none 0 []
    [⟨[0]⟩, ⟨[1, 2]⟩] ⟨TargetBlockSize.finite 1, none, none⟩⟩

/-- C4: with `seed = None`, the seed is derived once at construction as
wall-clock nanoseconds modulo `INT32_MAX`, so it lies in `[0, INT32_MAX)`;
it is unchanged by any sequence of invocations, and every invocation builds
its `ShuffleTaskSpec` with that same fixed seed. -/
theorem C4_seed_derived_once (dc : DataContext) (no : Option Int)
    (rra : RayRemoteArgs) (dl : Option Int) (t : Nat)
    (calls : List (List RefBundle × TaskContext))
    (refs : List RefBundle) (ctx : TaskContext) :
    (generate_random_shuffle_fn dc none no rra dl t).seed =
        ((t % INT32_MAX : Nat) : Int)
    ∧ 0 ≤ (generate_random_shuffle_fn dc none no rra dl t).seed
    ∧ (generate_random_shuffle_fn dc none no rra dl t).seed < (INT32_MAX : Int)
    ∧ (runCalls (generate_random_shuffle_fn dc none no rra dl t) calls).seed =
        (generate_random_shuffle_fn dc none no rra dl t).seed
    ∧ (fn (runCalls (generate_random_shuffle_fn dc none no rra dl t) calls)
          refs ctx).built_spec.random_seed =
        (generate_random_shuffle_fn dc none no rra dl t).seed := by
  refine ⟨rfl, ?_, ?_, runCalls_seed calls _, ?_⟩
  · exact Int.natCast_nonneg _
  · show (((t % INT32_MAX : Nat) : Int)) < (INT32_MAX : Int)
    exact_mod_cast Nat.mod_lt t (by norm_num [INT32_MAX])
  · show (runCalls (generate_random_shuffle_fn dc none no rra dl t) calls).seed = _
    exact runCalls_seed calls _

/-- C5: an explicitly supplied seed (any integer, including 0) is resolved
to itself unchanged, and every invocation — whatever invocations preceded
it — builds its `ShuffleTaskSpec` with exactly this seed as
`random_seed`. -/
theorem C5_explicit_seed_unchanged (dc : DataContext) (s : Int)
    (no : Option Int) (rra : RayRemoteArgs) (dl : Option Int) (t : Nat)
    (calls : List (List RefBundle × TaskContext))
    (refs : List RefBundle) (ctx : TaskContext) :
    (generate_random_shuffle_fn dc (some s) no rra dl t).seed = s
    ∧ (fn (runCalls (generate_random_shuffle_fn dc (some s) no rra dl t)
          calls) refs ctx).built_spec.random_seed = s := by
  refine ⟨rfl, ?_⟩
  show (runCalls (generate_random_shuffle_fn dc (some s) no rra dl t)
    calls).seed = s
  exact runCalls_seed calls _

/-- C6: when the context carries an upstream map transformer, a scheduler
`execute` call receives the upstream stage's remote args
(`ctx.upstream_map_ray_remote_args`) as both the map-phase and the
reduce-phase args. -/
theorem C6_fused_args_from_upstream (dc : DataContext) (seed : Option Int)
    (no : Option Int) (rra : RayRemoteArgs) (dl : Option Int) (t : Nat)
    (calls : List (List RefBundle × TaskContext)) (refs : List RefBundle)
    (tmbs : TargetBlockSize) (mt : MapTransformer) (uargs : RayRemoteArgs)
    (call : ExecuteCall)
    (h : (fn (runCalls (generate_random_shuffle_fn dc seed no rra dl t)
          calls) refs ⟨tmbs, some mt, uargs⟩).result = FnResult.ok call) :
    call.map_ray_remote_args = uargs
    ∧ call.reduce_ray_remote_args = uargs := by
  simp only [fn] at h
  split at h
  · split at h
    · exact absurd h (by simp)
    · cases h
      exact ⟨rfl, rfl⟩
  · cases h
    exact ⟨rfl, rfl⟩

theorem C6_fused_args_from_upstream_witness :
    ((fn (runCalls (generate_random_shuffle_fn
            ⟨ShuffleStrategy.SORT_SHUFFLE_PULL_BASED⟩ (some 5) none none none
            0) []) [⟨[0]⟩]
        ⟨TargetBlockSize.finite 4, some ⟨TargetBlockSize.finite 4, 7⟩,
          some []⟩).result =
      FnResult.ok ⟨SchedulerKind.pull_based,
        ⟨TargetBlockSize.finite 4, true, 5, some 7⟩, [⟨[0]⟩], 1, some [],
        some [], none⟩)
    ∧ (⟨SchedulerKind.pull_based, ⟨TargetBlockSize.finite 4, true, 5, some 7⟩,
        [⟨[0]⟩], 1, some [], some [], none⟩ :
          ExecuteCall).map_ray_remote_args = some []
    ∧ (⟨SchedulerKind.pull_based, ⟨TargetBlockSize.finite 4, true, 5, some 7⟩,
        [⟨[0]⟩], 1, some [], some [], none⟩ :
          ExecuteCall).reduce_ray_remote_args = some [] :=
  ⟨rfl, C6_fused_args_from_upstream
    ⟨ShuffleStrategy.SORT_SHUFFLE_PULL_BASED⟩ (some 5) none none none 0 []
    [⟨[0]⟩] (TargetBlockSize.finite 4) ⟨TargetBlockSize.finite 4, 7⟩ (some [])
    ⟨SchedulerKind.pull_based, ⟨TargetBlockSize.finite 4, true, 5, some 7⟩,
      [⟨[0]⟩], 1, some [], some [], none⟩ rfl⟩

/-- C7 counterexample: the transform is constructed with original remote
args `some []`; a first invocation with an upstream transformer attached
(whose `upstream_map_ray_remote_args` is `none`) rebinds the captured args;
a second invocation with *no* upstream transformer then hands the scheduler
`none` — not the caller's original `some []` — refuting the claim that
no-upstream invocations always receive the caller's original args. -/
theorem C7_counterexample :
    (fn (fn (generate_random_shuffle_fn
            ⟨ShuffleStrategy.SORT_SHUFFLE_PULL_BASED⟩ (some 0) none (some [])
            none 0) [⟨[0]⟩]
          ⟨TargetBlockSize.finite 1, some ⟨TargetBlockSize.finite 1, 3⟩,
            none⟩).state [⟨[0]⟩]
        ⟨TargetBlockSize.finite 1, none, none⟩).result.mapArgs? =
      some none
    ∧ some (none : RayRemoteArgs) ≠
        some (some ([] : List (String × Int))) := by
  constructor
  · rfl
  · decide

/-- C7 amended: when no upstream transformer is attached in the current
invocation *and in every earlier invocation of the same transform*, the
scheduler receives the caller's original remote args unchanged for both
phases. (An earlier invocation with an upstream transformer attached
permanently rebinds the captured args — see the `nonlocal` rebinding.) -/
theorem C7_no_fusion_passthrough (dc : DataContext) (seed : Option Int)
    (no : Option Int) (rra : RayRemoteArgs) (dl : Option Int) (t : Nat)
    (calls : List (List RefBundle × TaskContext)) (refs : List RefBundle)
    (tmbs : TargetBlockSize) (uargs : RayRemoteArgs) (call : ExecuteCall)
    (hcalls : ∀ c ∈ calls, c.2.upstream_map_transformer = none)
    (h : (fn (runCalls (generate_random_shuffle_fn dc seed no rra dl t)
          calls) refs ⟨tmbs, none, uargs⟩).result = FnResult.ok call) :
    call.map_ray_remote_args = rra
    ∧ call.reduce_ray_remote_args = rra := by
  have hr : (runCalls (generate_random_shuffle_fn dc seed no rra dl t)
      calls).ray_remote_args = rra :=
    runCalls_rargs_of_none calls _ hcalls
  simp only [fn, hr] at h
  split at h
  · split at h
    · exact absurd h (by simp)
    · cases h
      exact ⟨rfl, rfl⟩
  · cases h
    exact ⟨rfl, rfl⟩

theorem C7_no_fusion_passthrough_witness :
    (∀ c ∈ ([] : List (List RefBundle × TaskContext)),
      c.2.upstream_map_transformer = none)
    ∧ ((fn (runCalls (generate_random_shuffle_fn
            ⟨ShuffleStrategy.SORT_SHUFFLE_PULL_BASED⟩ (some 0) none (some [])
            none 0) []) [⟨[0]⟩]
        ⟨TargetBlockSize.finite 1, none, none⟩).result =
      FnResult.ok ⟨SchedulerKind.pull_based,
        ⟨TargetBlockSize.finite 1, true, 0, none⟩, [⟨[0]⟩], 1, some [],
        some [], none⟩)
    ∧ (⟨SchedulerKind.pull_based, ⟨TargetBlockSize.finite 1, true, 0, none⟩,
        [⟨[0]⟩], 1, some [], some [], none⟩ :
          ExecuteCall).map_ray_remote_args = some []
    ∧ (⟨SchedulerKind.pull_based, ⟨TargetBlockSize.finite 1, true, 0, none⟩,
        [⟨[0]⟩], 1, some [], some [], none⟩ :
          ExecuteCall).reduce_ray_remote_args = some [] := by
  refine ⟨by simp, rfl, ?_, ?_⟩
  · exact (C7_no_fusion_passthrough
      ⟨ShuffleStrategy.SORT_SHUFFLE_PULL_BASED⟩ (some 0) none (some []) none 0
      [] [⟨[0]⟩] (TargetBlockSize.finite 1) none
      ⟨SchedulerKind.pull_based, ⟨TargetBlockSize.finite 1, true, 0, none⟩,
        [⟨[0]⟩], 1, some [], some [], none⟩ (by simp) rfl).1
  · exact (C7_no_fusion_passthrough
      ⟨ShuffleStrategy.SORT_SHUFFLE_PULL_BASED⟩ (some 0) none (some []) none 0
      [] [⟨[0]⟩] (TargetBlockSize.finite 1) none
      ⟨SchedulerKind.pull_based, ⟨TargetBlockSize.finite 1, true, 0, none⟩,
        [⟨[0]⟩], 1, some [], some [], none⟩ (by simp) rfl).2

/-- C8 counterexample: a transform constructed once and invoked twice, both
times with an upstream transformer attached, performs the
`set_target_max_block_size` override twice — not "exactly once per
orchestrator construction" as the claim states. -/
theorem C8_counterexample :
    runOverrides (generate_random_shuffle_fn
        ⟨ShuffleStrategy.SORT_SHUFFLE_PULL_BASED⟩ (some 0) none none none 0)
      [([⟨[0]⟩], ⟨TargetBlockSize.finite 1,
          some ⟨TargetBlockSize.finite 1, 3⟩, none⟩),
       ([⟨[0]⟩], ⟨TargetBlockSize.finite 1,
          some ⟨TargetBlockSize.finite 1, 3⟩, none⟩)] = 2
    ∧ (2 : Nat) ≠ 1 := by
  constructor
  · rfl
  · decide

/-- C8 amended: the override of the upstream transformer's target max block
size to infinity happens once per *invocation* in which an upstream
transformer is attached (so, over any run, as many times as there are such
invocations), each time setting the same unbounded value — it is not
limited to once per orchestrator construction. -/
theorem C8_override_per_fused_invocation (st : ShuffleFnState)
    (calls : List (List RefBundle × TaskContext))
    (refs : List RefBundle) (ctx : TaskContext) :
    runOverrides st calls =
      (calls.filter fun c => c.2.upstream_map_transformer.isSome).length
    ∧ (fn st refs ctx).overrides =
        (if ctx.upstream_map_transformer.isSome then 1 else 0)
    ∧ (fn st refs ctx).ctx_transformer = ctx.upstream_map_transformer.map
        (fun mt => { mt with
          target_max_block_size := TargetBlockSize.infinite }) :=
  ⟨runOverrides_count calls st, rfl, rfl⟩

/-- C9: an invocation with an upstream transformer attached rebinds the
`nonlocal`-captured remote args to that invocation's
`ctx.upstream_map_ray_remote_args`, and the rebinding persists through any
sequence of later invocations that carry no upstream transformer. -/
theorem C9_nonlocal_rebinding_persists (st : ShuffleFnState)
    (refs : List RefBundle) (tmbs : TargetBlockSize) (mt : MapTransformer)
    (uargs : RayRemoteArgs)
    (later : List (List RefBundle × TaskContext))
    (hlater : ∀ c ∈ later, c.2.upstream_map_transformer = none) :
    (fn st refs ⟨tmbs, some mt, uargs⟩).state.ray_remote_args = uargs
    ∧ (runCalls (fn st refs ⟨tmbs, some mt, uargs⟩).state
        later).ray_remote_args = uargs := by
  refine ⟨rfl, ?_⟩
  rw [runCalls_rargs_of_none later _ hlater]
  rfl

theorem C9_nonlocal_rebinding_persists_witness :
    (∀ c ∈ [([(⟨[0]⟩ : RefBundle)],
        (⟨TargetBlockSize.finite 2, none, some []⟩ : TaskContext))],
      c.2.upstream_map_transformer = none)
    ∧ (fn (generate_random_shuffle_fn
          ⟨ShuffleStrategy.SORT_SHUFFLE_PULL_BASED⟩ (some 1) none (some [])
          none 0) [⟨[0]⟩]
        ⟨TargetBlockSize.finite 1, some ⟨TargetBlockSize.finite 1, 9⟩,
          none⟩).state.ray_remote_args = none
    ∧ (runCalls (fn (generate_random_shuffle_fn
          ⟨ShuffleStrategy.SORT_SHUFFLE_PULL_BASED⟩ (some 1) none (some [])
          none 0) [⟨[0]⟩]
        ⟨TargetBlockSize.finite 1, some ⟨TargetBlockSize.finite 1, 9⟩,
          none⟩).state
        [([⟨[0]⟩], ⟨TargetBlockSize.finite 2, none,
          some []⟩)]).ray_remote_args = none := by
  refine ⟨by simp, ?_, ?_⟩
  · exact (C9_nonlocal_rebinding_persists
      (generate_random_shuffle_fn ⟨ShuffleStrategy.SORT_SHUFFLE_PULL_BASED⟩
        (some 1) none (some []) none 0) [⟨[0]⟩] (TargetBlockSize.finite 1)
      ⟨TargetBlockSize.finite 1, 9⟩ none
      [([⟨[0]⟩], ⟨TargetBlockSize.finite 2, none, some []⟩)]
      (by simp)).1
  · exact (C9_nonlocal_rebinding_persists
      (generate_random_shuffle_fn ⟨ShuffleStrategy.SORT_SHUFFLE_PULL_BASED⟩
        (some 1) none (some []) none 0) [⟨[0]⟩] (TargetBlockSize.finite 1)
      ⟨TargetBlockSize.finite 1, 9⟩ none
      [([⟨[0]⟩], ⟨TargetBlockSize.finite 2, none, some []⟩)]
      (by simp)).2

/-- C10: the push-based rejection is not state-atomic — with the push-based
strategy, `num_outputs` supplied, and an upstream transformer attached, the
invocation yields the `NotImplementedError`, yet the upstream transformer's
target max block size has been set to infinity and the captured remote args
have been overwritten with `ctx.upstream_map_ray_remote_args`. -/
theorem C10_error_path_side_effects (seed : Option Int) (n : Int)
    (rra : RayRemoteArgs) (dl : Option Int) (t : Nat)
    (calls : List (List RefBundle × TaskContext)) (refs : List RefBundle)
    (tmbs : TargetBlockSize) (mt : MapTransformer) (uargs : RayRemoteArgs) :
    (fn (runCalls (generate_random_shuffle_fn
          ⟨ShuffleStrategy.SORT_SHUFFLE_PUSH_BASED⟩ seed (some n) rra dl t)
        calls) refs ⟨tmbs, some mt, uargs⟩).result =
      FnResult.error_not_implemented
    ∧ (fn (runCalls (generate_random_shuffle_fn
          ⟨ShuffleStrategy.SORT_SHUFFLE_PUSH_BASED⟩ seed (some n) rra dl t)
        calls) refs ⟨tmbs, some mt, uargs⟩).ctx_transformer =
      some { mt with target_max_block_size := TargetBlockSize.infinite }
    ∧ (fn (runCalls (generate_random_shuffle_fn
          ⟨ShuffleStrategy.SORT_SHUFFLE_PUSH_BASED⟩ seed (some n) rra dl t)
        calls) refs ⟨tmbs, some mt, uargs⟩).state.ray_remote_args =
      uargs := by
  refine ⟨?_, rfl, rfl⟩
  exact push_with_num_outputs_errors seed n rra dl t calls refs
    ⟨tmbs, some mt, uargs⟩

end RandomShuffle
